import Mathlib

/-!
Verification development for the Facebook ads creation service.

The repository contains two endpoint variants:
a src/index.js variant, embedded in namespace Spec.Index, and
a src/unnamed/part_000 variant, embedded in namespace Spec.PartA.

Remote network calls are the environment: each creation operation is
modelled as a stub function from the payload the code builds and the
attempt index to either an identifier or a thrown error. The embedding
records, per request, every payload passed to every remote operation,
so that call counts and transmitted field values are provable facts.
-/

namespace Spec

/-- Model of a JavaScript Error value as thrown by the remote SDK or fetch
code. The field message is error.message; code is error.code (the rate
limit code is 17); respMessage models error.response?.data?.error?.message
and respTrace models error.response?.data?.error?.fbtrace_id, with none
standing for undefined. -/
structure RemoteError where
  message : String
  code : Option Nat
  respMessage : Option String
  respTrace : Option String
deriving DecidableEq

instance {ε α : Type} [DecidableEq ε] [DecidableEq α] : DecidableEq (Except ε α) := fun a b =>
  match a, b with
  | .ok x, .ok y => if h : x = y then .isTrue (by rw [h]) else .isFalse (by intro hc; cases hc; exact h rfl)
  | .error x, .error y => if h : x = y then .isTrue (by rw [h]) else .isFalse (by intro hc; cases hc; exact h rfl)
  | .ok _, .error _ => .isFalse (by intro hc; cases hc)
  | .error _, .ok _ => .isFalse (by intro hc; cases hc)

/-- Whitespace characters stripped by the validator trim sanitizer
(space, tab, newline, carriage return, vertical tab, form feed,
no-break space). -/
def isWSChar (c : Char) : Bool :=
  c == ' ' || c == '\t' || c == '\n' || c == '\r' ||
  c == Char.ofNat 11 || c == Char.ofNat 12 || c == Char.ofNat 160

/-- Drop leading and trailing whitespace from a character list. -/
def trimChars (l : List Char) : List Char :=
  ((l.dropWhile isWSChar).reverse.dropWhile isWSChar).reverse

/-- The trim sanitizer used by the validation chains. -/
def jsTrim (s : String) : String := String.mk (trimChars s.data)

/-- Per-character HTML entity escaping as performed by the escape
sanitizer of validator.js: ampersand, double quote, single quote,
less than, greater than, slash, backslash and backquote are replaced
by entities; every other character is kept. The sequential string
replacements of the source are equivalent to this per-character map
because no replacement output contains a character replaced later. -/
def escapeChar (c : Char) : List Char :=
  if c == '&' then "&amp;".data
  else if c == '"' then "&quot;".data
  else if c == Char.ofNat 39 then "&#x27;".data
  else if c == '<' then "&lt;".data
  else if c == '>' then "&gt;".data
  else if c == '/' then "&#x2F;".data
  else if c == '\\' then "&#x5C;".data
  else if c == Char.ofNat 96 then "&#96;".data
  else [c]

/-- Characters changed by the escape sanitizer. -/
def escapable (c : Char) : Bool :=
  c == '&' || c == '"' || c == Char.ofNat 39 || c == '<' || c == '>' ||
  c == '/' || c == '\\' || c == Char.ofNat 96

/-- Escape every character of a list. -/
def escapeList : List Char → List Char
  | [] => []
  | c :: cs => escapeChar c ++ escapeList cs

/-- The escape sanitizer applied by the src/index.js validation chains. -/
def escape (s : String) : String := String.mk (escapeList s.data)

/-- Startup configuration check of src/index.js lines 18 to 23: the
process exits unless both FACEBOOK_ACCESS_TOKEN and AD_ACCOUNT_ID are
truthy (present and non-empty). The result is true when the process
keeps running and accepts traffic. No format check is performed here. -/
def startupCheck (accessToken adAccountId : Option String) : Bool :=
  !(accessToken.getD "" == "") && !(adAccountId.getD "" == "")

/-- Model of the adAccountId.startsWith check of src/index.js line 112:
the string starts with the four characters act underscore. -/
def actPrefixed (s : String) : Bool :=
  s.data.take 4 == ['a', 'c', 't', '_']

namespace Index

/-- Raw request body of POST /create-ad in src/index.js; none models a
missing field. -/
structure Request where
  campaignName : Option String
  adSetName : Option String
  adName : Option String
  creativeTitle : Option String
  creativeBody : Option String
  pageId : Option String
  link : Option String
  imageUrl : Option String
deriving DecidableEq

/-- Validation chain notEmpty trim escape: notEmpty runs on the raw
value (a missing field is coerced to the empty string), so the single
recorded violation occurs exactly when the raw value is absent or the
empty string. The default message is used. -/
def textCheck (field : String) (v : Option String) : List (String × String) :=
  if v.getD "" = "" then [(field, "Invalid value")] else []

/-- Validation chain notEmpty isString for pageId: notEmpty fails on a
missing or empty value, isString additionally fails on a missing value
(undefined is not a string); both failures are recorded. -/
def pageIdCheck (v : Option String) : List (String × String) :=
  (if v.getD "" = "" then [("pageId", "Invalid value")] else []) ++
  (if v.isSome then [] else [("pageId", "Invalid value")])

/-- Validation chain isURL with a custom message; the isURL predicate of
validator.js is abstracted as a parameter, applied to the raw value with
a missing field coerced to the empty string (on which the real isURL is
false). -/
def urlCheck (isURL : String → Bool) (field msg : String) (v : Option String) :
    List (String × String) :=
  if isURL (v.getD "") then [] else [(field, msg)]

/-- The full validator array of src/index.js lines 82 to 90, in chain
order; validationResult collects the violations of every chain. -/
def validate (isURL : String → Bool) (r : Request) : List (String × String) :=
  textCheck "campaignName" r.campaignName ++
  (textCheck "adSetName" r.adSetName ++
  (textCheck "adName" r.adName ++
  (textCheck "creativeTitle" r.creativeTitle ++
  (textCheck "creativeBody" r.creativeBody ++
  (pageIdCheck r.pageId ++
  (urlCheck isURL "link" "Invalid URL" r.link ++
  urlCheck isURL "imageUrl" "Invalid image URL" r.imageUrl))))))

/-- Field values as destructured from req.body after the sanitizers ran:
the five text fields are trimmed then escaped, the others are raw. -/
structure Sanitized where
  campaignName : String
  adSetName : String
  adName : String
  creativeTitle : String
  creativeBody : String
  pageId : String
  link : String
  imageUrl : String
deriving DecidableEq

/-- Sanitization applied by a notEmpty trim escape chain. -/
def sanitizeText (v : Option String) : String := escape (jsTrim (v.getD ""))

/-- The sanitized request body read by the handler. -/
def sanitize (r : Request) : Sanitized :=
  { campaignName := sanitizeText r.campaignName
    adSetName := sanitizeText r.adSetName
    adName := sanitizeText r.adName
    creativeTitle := sanitizeText r.creativeTitle
    creativeBody := sanitizeText r.creativeBody
    pageId := r.pageId.getD ""
    link := r.link.getD ""
    imageUrl := r.imageUrl.getD "" }

/-- Campaign creation payload of src/index.js lines 122 to 131. -/
structure CampaignPayload where
  name : String
  objective : String
  status : String
  special_ad_categories : List String
  access_token : String
deriving DecidableEq

/-- Targeting object of the ad set payload, src/index.js lines 148 to 154. -/
structure Targeting where
  countries : List String
  age_min : Nat
  age_max : Nat
  publisher_platforms : List String
  facebook_positions : List String
deriving DecidableEq

/-- Ad set creation payload of src/index.js lines 138 to 158. -/
structure AdSetPayload where
  name : String
  campaign_id : String
  daily_budget : Nat
  billing_event : String
  optimization_goal : String
  bid_amount : Nat
  targeting : Targeting
  status : String
  access_token : String
deriving DecidableEq

/-- The link_data object of the creative payload, src/index.js lines
169 to 177; call_to_action holds the type string. -/
structure LinkData where
  link : String
  message : String
  name : String
  description : String
  call_to_action : String
  image_hash : String
deriving DecidableEq

/-- The object_story_spec of the creative payload. -/
structure ObjectStorySpec where
  page_id : String
  link_data : LinkData
deriving DecidableEq

/-- Creative creation payload of src/index.js lines 165 to 185;
standard_enhancements_enroll models the enroll flag of the
degrees_of_freedom_spec. -/
structure CreativePayload where
  name : String
  object_story_spec : ObjectStorySpec
  standard_enhancements_enroll : Bool
  access_token : String
deriving DecidableEq

/-- Ad creation payload of src/index.js lines 194 to 201. -/
structure AdPayload where
  name : String
  adset_id : String
  creative_id : String
  status : String
  access_token : String
deriving DecidableEq

/-- Campaign payload builder, mirroring src/index.js lines 124 to 130. -/
def campaignPayload (tok nm : String) : CampaignPayload :=
  { name := nm
    objective := "OUTCOME_TRAFFIC"
    status := "PAUSED"
    special_ad_categories := []
    access_token := tok }

/-- Ad set payload builder, mirroring src/index.js lines 141 to 157. -/
def adSetPayload (tok nm campaignId : String) : AdSetPayload :=
  { name := nm
    campaign_id := campaignId
    daily_budget := 1000
    billing_event := "IMPRESSIONS"
    optimization_goal := "LINK_CLICKS"
    bid_amount := 100
    targeting :=
      { countries := ["US"]
        age_min := 18
        age_max := 65
        publisher_platforms := ["facebook"]
        facebook_positions := ["feed"] }
    status := "PAUSED"
    access_token := tok }

/-- Creative payload builder, mirroring src/index.js lines 167 to 184. -/
def creativePayload (tok title bodyText pid lnk imageHash : String) : CreativePayload :=
  { name := title
    object_story_spec :=
      { page_id := pid
        link_data :=
          { link := lnk
            message := bodyText
            name := title
            description := "Learn more about our product!"
            call_to_action := "LEARN_MORE"
            image_hash := imageHash } }
    standard_enhancements_enroll := true
    access_token := tok }

/-- Ad payload builder, mirroring src/index.js lines 196 to 201. -/
def adPayload (tok nm adSetId creativeId : String) : AdPayload :=
  { name := nm
    adset_id := adSetId
    creative_id := creativeId
    status := "PAUSED"
    access_token := tok }

/-- The remote environment: one function per remote operation, taking
the payload the code built and the attempt index, returning the created
identifier or a thrown error. uploadImage is a single fetch and takes
the image url. -/
structure Stub where
  uploadImage : String → Except RemoteError String
  createCampaign : CampaignPayload → Nat → Except RemoteError String
  createAdSet : AdSetPayload → Nat → Except RemoteError String
  createAdCreative : CreativePayload → Nat → Except RemoteError String
  createAd : AdPayload → Nat → Except RemoteError String

/-- One list entry per actual invocation of each remote operation,
holding the payload (or url) passed on that invocation. -/
structure CallLog where
  uploadCalls : List String
  campaignCalls : List CampaignPayload
  adSetCalls : List AdSetPayload
  creativeCalls : List CreativePayload
  adCalls : List AdPayload
deriving DecidableEq

/-- The empty call log: no remote operation invoked. -/
def emptyLog : CallLog :=
  { uploadCalls := []
    campaignCalls := []
    adSetCalls := []
    creativeCalls := []
    adCalls := [] }

/-- HTTP responses of the src/index.js endpoint: status 400 with the
violation array, status 500 with the fields error, details and optional
fbtrace_id, or the success JSON with the four created identifiers. -/
inductive Response where
  | badRequest (errors : List (String × String))
  | serverError (error details : String) (fbtrace : Option String)
  | success (campaignId adSetId creativeId adId : String)
deriving DecidableEq

/-- Result of one request: the response sent and the remote call log. -/
structure Outcome where
  response : Response
  log : CallLog
deriving DecidableEq

/-- The details field of the 500 body, src/index.js line 222: the remote
message error.response?.data?.error?.message when present and truthy
(the empty string is falsy in JavaScript), otherwise error.message. -/
def errDetails (e : RemoteError) : String :=
  match e.respMessage with
  | some m => if m = "" then e.message else m
  | none => e.message

/-- The 500 response body of src/index.js lines 220 to 224. -/
def errorResponse (e : RemoteError) : Response :=
  .serverError "Ad creation failed" (errDetails e) e.respTrace

/-- The retry loop of src/index.js lines 37 to 47, with the current
attempt index i and the number of attempts still allowed after this one.
The pair holds the returned or finally thrown result and the number of
invocations of the operation. On a failure with no attempt left the
error of the final attempt is rethrown as is; otherwise the failure is
discarded, the loop sleeps and retries. -/
def retryAux {α : Type} (fn : Nat → Except RemoteError α) : Nat → Nat → Except RemoteError α × Nat
  | i, 0 => (fn i, 1)
  | i, r + 1 =>
    match fn i with
    | .ok v => (.ok v, 1)
    | .error _ =>
      let p := retryAux fn (i + 1) r
      (p.1, p.2 + 1)

/-- retryRequest of src/index.js with a given attempt budget; faithful
for budgets of at least 1 (the handler always passes the default 3; for
a budget of 0 the source returns undefined without invoking anything). -/
def retryRequest {α : Type} (fn : Nat → Except RemoteError α) (retries : Nat) :
    Except RemoteError α × Nat :=
  retryAux fn 0 (retries - 1)

/-- The try block of the handler after validation passed, src/index.js
lines 110 to 225: the account id format check, then image upload, then
the four creation steps each wrapped in retryRequest with budget 3,
short-circuiting to the 500 response on the first failure. -/
def pipeline (acct tok : String) (stub : Stub) (s : Sanitized) : Outcome :=
  if actPrefixed acct then
    match stub.uploadImage s.imageUrl with
    | .error e =>
      { response := errorResponse e
        log := { emptyLog with uploadCalls := [s.imageUrl] } }
    | .ok imageHash =>
      let cp := campaignPayload tok s.campaignName
      match retryRequest (stub.createCampaign cp) 3 with
      | (.error e, n1) =>
        { response := errorResponse e
          log := { emptyLog with
                   uploadCalls := [s.imageUrl]
                   campaignCalls := List.replicate n1 cp } }
      | (.ok campaignId, n1) =>
        let sp := adSetPayload tok s.adSetName campaignId
        match retryRequest (stub.createAdSet sp) 3 with
        | (.error e, n2) =>
          { response := errorResponse e
            log := { emptyLog with
                     uploadCalls := [s.imageUrl]
                     campaignCalls := List.replicate n1 cp
                     adSetCalls := List.replicate n2 sp } }
        | (.ok adSetId, n2) =>
          let crp := creativePayload tok s.creativeTitle s.creativeBody s.pageId s.link imageHash
          match retryRequest (stub.createAdCreative crp) 3 with
          | (.error e, n3) =>
            { response := errorResponse e
              log := { emptyLog with
                       uploadCalls := [s.imageUrl]
                       campaignCalls := List.replicate n1 cp
                       adSetCalls := List.replicate n2 sp
                       creativeCalls := List.replicate n3 crp } }
          | (.ok creativeId, n3) =>
            let ap := adPayload tok s.adName adSetId creativeId
            match retryRequest (stub.createAd ap) 3 with
            | (.error e, n4) =>
              { response := errorResponse e
                log := { uploadCalls := [s.imageUrl]
                         campaignCalls := List.replicate n1 cp
                         adSetCalls := List.replicate n2 sp
                         creativeCalls := List.replicate n3 crp
                         adCalls := List.replicate n4 ap } }
            | (.ok adId, n4) =>
              { response := .success campaignId adSetId creativeId adId
                log := { uploadCalls := [s.imageUrl]
                         campaignCalls := List.replicate n1 cp
                         adSetCalls := List.replicate n2 sp
                         creativeCalls := List.replicate n3 crp
                         adCalls := List.replicate n4 ap } }
  else
    { response := .serverError "Ad creation failed"
        "Invalid adAccountId format. Must start with \"act_\"" none
      log := emptyLog }

/-- The POST /create-ad handler of src/index.js: on a non-empty
violation list respond 400 with the list and perform no remote call,
otherwise run the pipeline on the sanitized body. -/
def handler (isURL : String → Bool) (acct tok : String) (stub : Stub) (r : Request) : Outcome :=
  if validate isURL r = [] then pipeline acct tok stub (sanitize r)
  else { response := .badRequest (validate isURL r), log := emptyLog }

end Index

namespace PartA

/-- Raw request body of POST /create-ad in src/unnamed/part_000. -/
structure Request where
  campaignName : Option String
  adSetName : Option String
  adName : Option String
  creativeTitle : Option String
  creativeBody : Option String
  pageId : Option String
deriving DecidableEq

/-- Validation chain notEmpty trim withMessage of src/unnamed/part_000:
one violation with the custom message exactly when the raw value is
absent or the empty string. -/
def textCheck (field msg : String) (v : Option String) : List (String × String) :=
  if v.getD "" = "" then [(field, msg)] else []

/-- The validator array of src/unnamed/part_000 lines 52 to 59; the
isNumeric predicate of validator.js is abstracted as a parameter,
applied to the raw value with a missing field coerced to the empty
string (on which the real isNumeric is false). -/
def validate (isNumeric : String → Bool) (r : Request) : List (String × String) :=
  textCheck "campaignName" "Campaign name is required" r.campaignName ++
  (textCheck "adSetName" "Ad set name is required" r.adSetName ++
  (textCheck "adName" "Ad name is required" r.adName ++
  (textCheck "creativeTitle" "Creative title is required" r.creativeTitle ++
  (textCheck "creativeBody" "Creative body is required" r.creativeBody ++
  (if isNumeric (r.pageId.getD "") then [] else [("pageId", "Page ID must be numeric")])))))

/-- Field values destructured from req.body after the trim sanitizers of
the five text chains ran; pageId is raw. -/
structure Sanitized where
  campaignName : String
  adSetName : String
  adName : String
  creativeTitle : String
  creativeBody : String
  pageId : String
deriving DecidableEq

/-- The sanitized request body read by the handler. -/
def sanitize (r : Request) : Sanitized :=
  { campaignName := jsTrim (r.campaignName.getD "")
    adSetName := jsTrim (r.adSetName.getD "")
    adName := jsTrim (r.adName.getD "")
    creativeTitle := jsTrim (r.creativeTitle.getD "")
    creativeBody := jsTrim (r.creativeBody.getD "")
    pageId := r.pageId.getD "" }

/-- Campaign creation payload of src/unnamed/part_000 lines 72 to 79. -/
structure CampaignPayload where
  name : String
  objective : String
  status : String
  special_ad_categories : List String
deriving DecidableEq

/-- Targeting object of the ad set payload, src/unnamed/part_000 lines
96 to 100. -/
structure Targeting where
  countries : List String
  age_min : Nat
  age_max : Nat
deriving DecidableEq

/-- Ad set creation payload of src/unnamed/part_000 lines 87 to 103. -/
structure AdSetPayload where
  name : String
  campaign_id : String
  daily_budget : Nat
  billing_event : String
  optimization_goal : String
  bid_amount : Nat
  targeting : Targeting
  status : String
deriving DecidableEq

/-- The link_data object of the creative payload, src/unnamed/part_000
lines 115 to 121; there is no image reference field. -/
structure LinkData where
  link : String
  message : String
  name : String
  description : String
  call_to_action : String
deriving DecidableEq

/-- The object_story_spec of the creative payload. -/
structure ObjectStorySpec where
  page_id : String
  link_data : LinkData
deriving DecidableEq

/-- Creative creation payload of src/unnamed/part_000 lines 110 to 123. -/
structure CreativePayload where
  name : String
  object_story_spec : ObjectStorySpec
deriving DecidableEq

/-- Ad creation payload of src/unnamed/part_000 lines 129 to 134. -/
structure AdPayload where
  name : String
  adset_id : String
  creative_id : String
  status : String
deriving DecidableEq

/-- Campaign payload builder of src/unnamed/part_000. -/
def campaignPayload (nm : String) : CampaignPayload :=
  { name := nm
    objective := "LEAD_GENERATION"
    status := "PAUSED"
    special_ad_categories := [] }

/-- Ad set payload builder of src/unnamed/part_000. -/
def adSetPayload (nm campaignId : String) : AdSetPayload :=
  { name := nm
    campaign_id := campaignId
    daily_budget := 1000
    billing_event := "IMPRESSIONS"
    optimization_goal := "LEAD_GENERATION"
    bid_amount := 100
    targeting := { countries := ["US"], age_min := 18, age_max := 65 }
    status := "PAUSED" }

/-- Creative payload builder of src/unnamed/part_000; the link is the
hardcoded example url, not caller supplied. -/
def creativePayload (title bodyText pid : String) : CreativePayload :=
  { name := title
    object_story_spec :=
      { page_id := pid
        link_data :=
          { link := "https://www.example.com"
            message := bodyText
            name := title
            description := "Get 20% off your first purchase!"
            call_to_action := "LEARN_MORE" } } }

/-- Ad payload builder of src/unnamed/part_000. -/
def adPayload (nm adSetId creativeId : String) : AdPayload :=
  { name := nm
    adset_id := adSetId
    creative_id := creativeId
    status := "PAUSED" }

/-- The remote environment of the part_000 variant. -/
structure Stub where
  createCampaign : CampaignPayload → Nat → Except RemoteError String
  createAdSet : AdSetPayload → Nat → Except RemoteError String
  createAdCreative : CreativePayload → Nat → Except RemoteError String
  createAd : AdPayload → Nat → Except RemoteError String

/-- One list entry per actual invocation of each remote operation. -/
structure CallLog where
  campaignCalls : List CampaignPayload
  adSetCalls : List AdSetPayload
  creativeCalls : List CreativePayload
  adCalls : List AdPayload
deriving DecidableEq

/-- The empty call log: no remote operation invoked. -/
def emptyLog : CallLog :=
  { campaignCalls := []
    adSetCalls := []
    creativeCalls := []
    adCalls := [] }

/-- HTTP responses of the part_000 endpoint: status 400 with the
violation array, status 500 with a single error field holding the local
error message, or the success JSON holding a single message string. -/
inductive Response where
  | badRequest (errors : List (String × String))
  | serverError (error : String)
  | success (message : String)
deriving DecidableEq

/-- Result of one request: the response sent and the remote call log. -/
structure Outcome where
  response : Response
  log : CallLog
deriving DecidableEq

/-- The retry loop of src/unnamed/part_000 lines 32 to 44: a failure is
retried only when its code is the rate limit code 17 and an attempt
remains; any other failure, and a rate limited final attempt, is
rethrown as is. -/
def retryAux {α : Type} (fn : Nat → Except RemoteError α) : Nat → Nat → Except RemoteError α × Nat
  | i, 0 => (fn i, 1)
  | i, r + 1 =>
    match fn i with
    | .ok v => (.ok v, 1)
    | .error e =>
      if e.code = some 17 then
        let p := retryAux fn (i + 1) r
        (p.1, p.2 + 1)
      else (.error e, 1)

/-- retryRequest of src/unnamed/part_000 with a given attempt budget;
faithful for budgets of at least 1 (the handler always passes the
default 3). -/
def retryRequest {α : Type} (fn : Nat → Except RemoteError α) (retries : Nat) :
    Except RemoteError α × Nat :=
  retryAux fn 0 (retries - 1)

/-- The try block of the part_000 handler after validation passed,
lines 66 to 141: the four creation steps each wrapped in retryRequest
with budget 3, short-circuiting to the 500 response on the first
failure; on success a single message string is returned. -/
def pipeline (stub : Stub) (s : Sanitized) : Outcome :=
  let cp := campaignPayload s.campaignName
  match retryRequest (stub.createCampaign cp) 3 with
  | (.error e, n1) =>
    { response := .serverError e.message
      log := { emptyLog with campaignCalls := List.replicate n1 cp } }
  | (.ok campaignId, n1) =>
    let sp := adSetPayload s.adSetName campaignId
    match retryRequest (stub.createAdSet sp) 3 with
    | (.error e, n2) =>
      { response := .serverError e.message
        log := { emptyLog with
                 campaignCalls := List.replicate n1 cp
                 adSetCalls := List.replicate n2 sp } }
    | (.ok adSetId, n2) =>
      let crp := creativePayload s.creativeTitle s.creativeBody s.pageId
      match retryRequest (stub.createAdCreative crp) 3 with
      | (.error e, n3) =>
        { response := .serverError e.message
          log := { emptyLog with
                   campaignCalls := List.replicate n1 cp
                   adSetCalls := List.replicate n2 sp
                   creativeCalls := List.replicate n3 crp } }
      | (.ok creativeId, n3) =>
        let ap := adPayload s.adName adSetId creativeId
        match retryRequest (stub.createAd ap) 3 with
        | (.error e, n4) =>
          { response := .serverError e.message
            log := { campaignCalls := List.replicate n1 cp
                     adSetCalls := List.replicate n2 sp
                     creativeCalls := List.replicate n3 crp
                     adCalls := List.replicate n4 ap } }
        | (.ok adId, n4) =>
          { response := .success ("Ad created successfully! Campaign ID: " ++ campaignId ++
              ", Ad ID: " ++ adId)
            log := { campaignCalls := List.replicate n1 cp
                     adSetCalls := List.replicate n2 sp
                     creativeCalls := List.replicate n3 crp
                     adCalls := List.replicate n4 ap } }

/-- The POST /create-ad handler of src/unnamed/part_000. -/
def handler (isNumeric : String → Bool) (stub : Stub) (r : Request) : Outcome :=
  if validate isNumeric r = [] then pipeline stub (sanitize r)
  else { response := .badRequest (validate isNumeric r), log := emptyLog }

end PartA

/-- Concrete stand-in for the isURL predicate of validator.js on the
inputs exercised by the concrete scenarios: true exactly on the two
well-formed urls used there, false on everything else, in particular on
the empty string (as the real isURL is). -/
def isURLc (s : String) : Bool :=
  s == "https://example.com" || s == "https://img.example.com/pic.png"

/-- Concrete stand-in for the isNumeric predicate of validator.js:
non-empty all-digit strings. -/
def isNumC (s : String) : Bool :=
  !(s == "") && s.data.all Char.isDigit

/-- A transport-level failure carrying no remote response data. -/
def eBoom : RemoteError :=
  { message := "boom", code := none, respMessage := none, respTrace := none }

/-- A rate limit failure, code 17. -/
def eRate : RemoteError :=
  { message := "User request limit reached", code := some 17
    respMessage := some "User request limit reached", respTrace := some "TRCrate" }

/-- A permanent remote rejection carrying a remote message and trace id. -/
def ePerm : RemoteError :=
  { message := "Call failed", code := some 100
    respMessage := some "Invalid targeting spec", respTrace := some "TRC99" }

/-- An index.js environment in which every operation succeeds first try,
returning the fixed identifiers of the example scenario. -/
def stubAllOk : Index.Stub :=
  { uploadImage := fun _ => .ok "IMGHASH1"
    createCampaign := fun _ _ => .ok "cmp_1"
    createAdSet := fun _ _ => .ok "set_1"
    createAdCreative := fun _ _ => .ok "cre_1"
    createAd := fun _ _ => .ok "ad_1" }

/-- Same environment but ad set creation fails permanently. -/
def stubAdSetFails : Index.Stub :=
  { stubAllOk with createAdSet := fun _ _ => .error ePerm }

/-- Same environment but campaign creation always fails. -/
def stubCampaignFails : Index.Stub :=
  { stubAllOk with createCampaign := fun _ _ => .error ePerm }

/-- A part_000 environment in which every operation succeeds first try. -/
def stubAllOk2 : PartA.Stub :=
  { createCampaign := fun _ _ => .ok "cmp_1"
    createAdSet := fun _ _ => .ok "set_1"
    createAdCreative := fun _ _ => .ok "cre_1"
    createAd := fun _ _ => .ok "ad_1" }

/-- Same part_000 environment but ad set creation fails permanently. -/
def stub2AdSetFails : PartA.Stub :=
  { stubAllOk2 with createAdSet := fun _ _ => .error ePerm }

/-- Same part_000 environment but campaign creation always fails. -/
def stub2CampaignFails : PartA.Stub :=
  { stubAllOk2 with createCampaign := fun _ _ => .error ePerm }

/-- The example request of the specification, including no image url. -/
def reqNoImage : Index.Request :=
  { campaignName := some "Spring Sale", adSetName := some "US-18-65"
    adName := some "Launch", creativeTitle := some "Hello"
    creativeBody := some "Buy now", pageId := some "123456"
    link := some "https://example.com", imageUrl := none }

/-- The example request extended with a well-formed image url. -/
def reqFull : Index.Request :=
  { reqNoImage with imageUrl := some "https://img.example.com/pic.png" }

/-- The example request with several invalid fields: a missing campaign
name, a whitespace-only creative title coerced as present, a missing
page id and a malformed link. -/
def reqBad : Index.Request :=
  { campaignName := none, adSetName := some "US-18-65"
    adName := some "Launch", creativeTitle := some "Hello"
    creativeBody := some "", pageId := none
    link := some "not a url", imageUrl := some "https://img.example.com/pic.png" }

/-- The full request with a campaign name carrying a leading space and
no escapable character. -/
def reqSpace : Index.Request :=
  { reqFull with campaignName := some " Launch Sale" }

/-- The full request with a campaign name containing an ampersand. -/
def reqAmp : Index.Request :=
  { reqFull with campaignName := some "A & B" }

/-- The example request restricted to the part_000 fields. -/
def reqPart : PartA.Request :=
  { campaignName := some "Spring Sale", adSetName := some "US-18-65"
    adName := some "Launch", creativeTitle := some "Hello"
    creativeBody := some "Buy now", pageId := some "123456" }

/-- A part_000 request with a missing campaign name and creative body. -/
def reqPartBad : PartA.Request :=
  { reqPart with campaignName := none, creativeBody := some "" }

/-- An operation failing twice with a transport error, then succeeding. -/
def failTwiceBoom : Nat → Except RemoteError String :=
  fun i => if i < 2 then .error eBoom else .ok "A"

/-- An operation that always fails with a transport error. -/
def alwaysBoom : Nat → Except RemoteError String :=
  fun _ => .error eBoom

/-- An operation failing twice with the rate limit error, then
succeeding. -/
def failTwiceRate : Nat → Except RemoteError String :=
  fun i => if i < 2 then .error eRate else .ok "B"

/-- An operation that always fails with the rate limit error. -/
def alwaysRate : Nat → Except RemoteError String :=
  fun _ => .error eRate

/-- An operation failing once with a non rate limit error, then
succeeding. -/
def failOncePerm : Nat → Except RemoteError String :=
  fun i => if i = 0 then .error ePerm else .ok "C"

end Spec

namespace Spec

theorem Index.campaignCalls_shape (acct tok : String) (stub : Index.Stub) (s : Index.Sanitized) :
    ∀ p ∈ (Index.pipeline acct tok stub s).log.campaignCalls,
      p = Index.campaignPayload tok s.campaignName := by
  intro p hp
  simp only [Index.pipeline] at hp
  repeat' split at hp
  all_goals simp_all [Index.emptyLog, List.mem_replicate]

theorem Index.adSetCalls_shape (acct tok : String) (stub : Index.Stub) (s : Index.Sanitized) :
    ∀ p ∈ (Index.pipeline acct tok stub s).log.adSetCalls,
      p.status = "PAUSED" ∧ p.name = s.adSetName := by
  intro p hp
  simp only [Index.pipeline] at hp
  repeat' split at hp
  all_goals simp_all [Index.emptyLog, List.mem_replicate, Index.adSetPayload]

theorem Index.creativeCalls_shape (acct tok : String) (stub : Index.Stub) (s : Index.Sanitized) :
    ∀ p ∈ (Index.pipeline acct tok stub s).log.creativeCalls,
      p.name = s.creativeTitle ∧
      p.object_story_spec.link_data.name = s.creativeTitle ∧
      p.object_story_spec.link_data.message = s.creativeBody ∧
      stub.uploadImage s.imageUrl = .ok p.object_story_spec.link_data.image_hash := by
  intro p hp
  simp only [Index.pipeline] at hp
  repeat' split at hp
  all_goals simp_all [Index.emptyLog, List.mem_replicate, Index.creativePayload]

theorem Index.adCalls_shape (acct tok : String) (stub : Index.Stub) (s : Index.Sanitized) :
    ∀ p ∈ (Index.pipeline acct tok stub s).log.adCalls,
      p.status = "PAUSED" ∧ p.name = s.adName := by
  intro p hp
  simp only [Index.pipeline] at hp
  repeat' split at hp
  all_goals simp_all [Index.emptyLog, List.mem_replicate, Index.adPayload]

theorem Index.uploadCalls_shape (acct tok : String) (stub : Index.Stub) (s : Index.Sanitized) :
    ∀ u ∈ (Index.pipeline acct tok stub s).log.uploadCalls, u = s.imageUrl := by
  intro u hu
  simp only [Index.pipeline] at hu
  repeat' split at hu
  all_goals simp_all [Index.emptyLog]

end Spec

namespace Spec

theorem Index.handler_invalid (isURL : String → Bool) (acct tok : String) (stub : Index.Stub)
    (r : Index.Request) (h : Index.validate isURL r ≠ []) :
    Index.handler isURL acct tok stub r =
      ⟨.badRequest (Index.validate isURL r), Index.emptyLog⟩ := by
  simp [Index.handler, h]

theorem Index.handler_valid (isURL : String → Bool) (acct tok : String) (stub : Index.Stub)
    (r : Index.Request) (h : Index.validate isURL r = []) :
    Index.handler isURL acct tok stub r = Index.pipeline acct tok stub (Index.sanitize r) := by
  simp [Index.handler, h]

theorem Index.pipeline_badAcct (acct tok : String) (stub : Index.Stub) (s : Index.Sanitized)
    (h : Spec.actPrefixed acct = false) :
    Index.pipeline acct tok stub s =
      ⟨.serverError "Ad creation failed" "Invalid adAccountId format. Must start with \"act_\"" none,
       Index.emptyLog⟩ := by
  simp [Index.pipeline, h]

theorem Index.pipeline_campaignFail (acct tok : String) (stub : Index.Stub) (s : Index.Sanitized)
    (img : String) (e : RemoteError) (n1 : Nat)
    (ha : Spec.actPrefixed acct = true)
    (hu : stub.uploadImage s.imageUrl = .ok img)
    (hc : Index.retryRequest (stub.createCampaign (Index.campaignPayload tok s.campaignName)) 3 =
      (.error e, n1)) :
    Index.pipeline acct tok stub s =
      ⟨Index.errorResponse e,
       { uploadCalls := [s.imageUrl]
         campaignCalls := List.replicate n1 (Index.campaignPayload tok s.campaignName)
         adSetCalls := []
         creativeCalls := []
         adCalls := [] }⟩ := by
  simp [Index.pipeline, ha, hu, hc, Index.emptyLog]

theorem Index.pipeline_adSetFail (acct tok : String) (stub : Index.Stub) (s : Index.Sanitized)
    (img cid : String) (e : RemoteError) (n1 n2 : Nat)
    (ha : Spec.actPrefixed acct = true)
    (hu : stub.uploadImage s.imageUrl = .ok img)
    (hc : Index.retryRequest (stub.createCampaign (Index.campaignPayload tok s.campaignName)) 3 =
      (.ok cid, n1))
    (hs : Index.retryRequest (stub.createAdSet (Index.adSetPayload tok s.adSetName cid)) 3 =
      (.error e, n2)) :
    Index.pipeline acct tok stub s =
      ⟨Index.errorResponse e,
       { uploadCalls := [s.imageUrl]
         campaignCalls := List.replicate n1 (Index.campaignPayload tok s.campaignName)
         adSetCalls := List.replicate n2 (Index.adSetPayload tok s.adSetName cid)
         creativeCalls := []
         adCalls := [] }⟩ := by
  simp [Index.pipeline, ha, hu, hc, hs, Index.emptyLog]

theorem Index.pipeline_allOk (acct tok : String) (stub : Index.Stub) (s : Index.Sanitized)
    (img cid sid crid aid : String) (n1 n2 n3 n4 : Nat)
    (ha : Spec.actPrefixed acct = true)
    (hu : stub.uploadImage s.imageUrl = .ok img)
    (hc : Index.retryRequest (stub.createCampaign (Index.campaignPayload tok s.campaignName)) 3 =
      (.ok cid, n1))
    (hs : Index.retryRequest (stub.createAdSet (Index.adSetPayload tok s.adSetName cid)) 3 =
      (.ok sid, n2))
    (hcr : Index.retryRequest (stub.createAdCreative
      (Index.creativePayload tok s.creativeTitle s.creativeBody s.pageId s.link img)) 3 =
      (.ok crid, n3))
    (had : Index.retryRequest (stub.createAd (Index.adPayload tok s.adName sid crid)) 3 =
      (.ok aid, n4)) :
    (Index.pipeline acct tok stub s).response = .success cid sid crid aid := by
  simp [Index.pipeline, ha, hu, hc, hs, hcr, had]

theorem PartA.handler_invalidP (isNum : String → Bool) (stub : PartA.Stub)
    (r : PartA.Request) (h : PartA.validate isNum r ≠ []) :
    PartA.handler isNum stub r = ⟨.badRequest (PartA.validate isNum r), PartA.emptyLog⟩ := by
  simp [PartA.handler, h]

theorem PartA.handler_validP (isNum : String → Bool) (stub : PartA.Stub)
    (r : PartA.Request) (h : PartA.validate isNum r = []) :
    PartA.handler isNum stub r = PartA.pipeline stub (PartA.sanitize r) := by
  simp [PartA.handler, h]

theorem PartA.pipeline_campaignFailP (stub : PartA.Stub) (s : PartA.Sanitized)
    (e : RemoteError) (n1 : Nat)
    (hc : PartA.retryRequest (stub.createCampaign (PartA.campaignPayload s.campaignName)) 3 =
      (.error e, n1)) :
    PartA.pipeline stub s =
      ⟨.serverError e.message,
       { campaignCalls := List.replicate n1 (PartA.campaignPayload s.campaignName)
         adSetCalls := []
         creativeCalls := []
         adCalls := [] }⟩ := by
  simp [PartA.pipeline, hc, PartA.emptyLog]

theorem PartA.pipeline_adSetFailP (stub : PartA.Stub) (s : PartA.Sanitized)
    (cid : String) (e : RemoteError) (n1 n2 : Nat)
    (hc : PartA.retryRequest (stub.createCampaign (PartA.campaignPayload s.campaignName)) 3 =
      (.ok cid, n1))
    (hs : PartA.retryRequest (stub.createAdSet (PartA.adSetPayload s.adSetName cid)) 3 =
      (.error e, n2)) :
    PartA.pipeline stub s =
      ⟨.serverError e.message,
       { campaignCalls := List.replicate n1 (PartA.campaignPayload s.campaignName)
         adSetCalls := List.replicate n2 (PartA.adSetPayload s.adSetName cid)
         creativeCalls := []
         adCalls := [] }⟩ := by
  simp [PartA.pipeline, hc, hs, PartA.emptyLog]

theorem PartA.pipeline_allOkP (stub : PartA.Stub) (s : PartA.Sanitized)
    (cid sid crid aid : String) (n1 n2 n3 n4 : Nat)
    (hc : PartA.retryRequest (stub.createCampaign (PartA.campaignPayload s.campaignName)) 3 =
      (.ok cid, n1))
    (hs : PartA.retryRequest (stub.createAdSet (PartA.adSetPayload s.adSetName cid)) 3 =
      (.ok sid, n2))
    (hcr : PartA.retryRequest (stub.createAdCreative
      (PartA.creativePayload s.creativeTitle s.creativeBody s.pageId)) 3 = (.ok crid, n3))
    (had : PartA.retryRequest (stub.createAd (PartA.adPayload s.adName sid crid)) 3 =
      (.ok aid, n4)) :
    (PartA.pipeline stub s).response =
      .success ("Ad created successfully! Campaign ID: " ++ cid ++ ", Ad ID: " ++ aid) := by
  simp [PartA.pipeline, hc, hs, hcr, had]

theorem PartA.campaignCalls_shapeP (stub : PartA.Stub) (s : PartA.Sanitized) :
    ∀ p ∈ (PartA.pipeline stub s).log.campaignCalls,
      p.status = "PAUSED" ∧ p.name = s.campaignName := by
  intro p hp
  simp only [PartA.pipeline] at hp
  repeat' split at hp
  all_goals simp_all [PartA.emptyLog, List.mem_replicate, PartA.campaignPayload]

theorem PartA.adSetCalls_shapeP (stub : PartA.Stub) (s : PartA.Sanitized) :
    ∀ p ∈ (PartA.pipeline stub s).log.adSetCalls,
      p.status = "PAUSED" ∧ p.name = s.adSetName := by
  intro p hp
  simp only [PartA.pipeline] at hp
  repeat' split at hp
  all_goals simp_all [PartA.emptyLog, List.mem_replicate, PartA.adSetPayload]

theorem PartA.adCalls_shapeP (stub : PartA.Stub) (s : PartA.Sanitized) :
    ∀ p ∈ (PartA.pipeline stub s).log.adCalls,
      p.status = "PAUSED" ∧ p.name = s.adName := by
  intro p hp
  simp only [PartA.pipeline] at hp
  repeat' split at hp
  all_goals simp_all [PartA.emptyLog, List.mem_replicate, PartA.adPayload]

end Spec

namespace Spec

theorem Index.retryAux_ok {α : Type} (fn : Nat → Except RemoteError α) (v : α) :
    ∀ (k i r : Nat), k ≤ r → (∀ j, j < k → ∃ e, fn (i + j) = .error e) →
      fn (i + k) = .ok v → Index.retryAux fn i r = (.ok v, k + 1) := by
  intro k
  induction k with
  | zero =>
    intro i r _ _ hok
    rw [Nat.add_zero] at hok
    cases r with
    | zero => simp [Index.retryAux, hok]
    | succ r => simp [Index.retryAux, hok]
  | succ k ih =>
    intro i r hk hfail hok
    obtain ⟨e, he⟩ := hfail 0 (Nat.succ_pos k)
    rw [Nat.add_zero] at he
    cases r with
    | zero => omega
    | succ r =>
      have h1 : Index.retryAux fn (i + 1) r = (.ok v, k + 1) := by
        apply ih (i + 1) r (Nat.le_of_succ_le_succ hk)
        · intro j hj
          obtain ⟨e2, he2⟩ := hfail (j + 1) (Nat.succ_lt_succ hj)
          exact ⟨e2, by rw [show i + 1 + j = i + (j + 1) by omega]; exact he2⟩
        · rw [show i + 1 + k = i + (k + 1) by omega]; exact hok
      simp [Index.retryAux, he, h1]

theorem Index.retryAux_final {α : Type} (fn : Nat → Except RemoteError α) :
    ∀ (r i : Nat), (∀ j, j < r → ∃ e, fn (i + j) = .error e) →
      Index.retryAux fn i r = (fn (i + r), r + 1) := by
  intro r
  induction r with
  | zero => intro i _; simp [Index.retryAux]
  | succ r ih =>
    intro i hfail
    obtain ⟨e, he⟩ := hfail 0 (Nat.succ_pos r)
    rw [Nat.add_zero] at he
    have h1 : Index.retryAux fn (i + 1) r = (fn (i + 1 + r), r + 1) := by
      apply ih (i + 1)
      intro j hj
      obtain ⟨e2, he2⟩ := hfail (j + 1) (Nat.succ_lt_succ hj)
      exact ⟨e2, by rw [show i + 1 + j = i + (j + 1) by omega]; exact he2⟩
    rw [show i + 1 + r = i + (r + 1) by omega] at h1
    simp [Index.retryAux, he, h1]

theorem PartA.retryAux_okP {α : Type} (fn : Nat → Except RemoteError α) (v : α) :
    ∀ (k i r : Nat), k ≤ r →
      (∀ j, j < k → ∃ e, fn (i + j) = .error e ∧ e.code = some 17) →
      fn (i + k) = .ok v → PartA.retryAux fn i r = (.ok v, k + 1) := by
  intro k
  induction k with
  | zero =>
    intro i r _ _ hok
    rw [Nat.add_zero] at hok
    cases r with
    | zero => simp [PartA.retryAux, hok]
    | succ r => simp [PartA.retryAux, hok]
  | succ k ih =>
    intro i r hk hfail hok
    obtain ⟨e, he, hcode⟩ := hfail 0 (Nat.succ_pos k)
    rw [Nat.add_zero] at he
    cases r with
    | zero => omega
    | succ r =>
      have h1 : PartA.retryAux fn (i + 1) r = (.ok v, k + 1) := by
        apply ih (i + 1) r (Nat.le_of_succ_le_succ hk)
        · intro j hj
          obtain ⟨e2, he2, hc2⟩ := hfail (j + 1) (Nat.succ_lt_succ hj)
          exact ⟨e2, by rw [show i + 1 + j = i + (j + 1) by omega]; exact he2, hc2⟩
        · rw [show i + 1 + k = i + (k + 1) by omega]; exact hok
      simp [PartA.retryAux, he, hcode, h1]

theorem PartA.retryAux_finalP {α : Type} (fn : Nat → Except RemoteError α) :
    ∀ (r i : Nat), (∀ j, j < r → ∃ e, fn (i + j) = .error e ∧ e.code = some 17) →
      PartA.retryAux fn i r = (fn (i + r), r + 1) := by
  intro r
  induction r with
  | zero => intro i _; simp [PartA.retryAux]
  | succ r ih =>
    intro i hfail
    obtain ⟨e, he, hcode⟩ := hfail 0 (Nat.succ_pos r)
    rw [Nat.add_zero] at he
    have h1 : PartA.retryAux fn (i + 1) r = (fn (i + 1 + r), r + 1) := by
      apply ih (i + 1)
      intro j hj
      obtain ⟨e2, he2, hc2⟩ := hfail (j + 1) (Nat.succ_lt_succ hj)
      exact ⟨e2, by rw [show i + 1 + j = i + (j + 1) by omega]; exact he2, hc2⟩
    rw [show i + 1 + r = i + (r + 1) by omega] at h1
    simp [PartA.retryAux, he, hcode, h1]

theorem PartA.retryAux_perm {α : Type} (fn : Nat → Except RemoteError α) (e : RemoteError)
    (i r : Nat) (h : fn i = .error e) (hc : ¬ e.code = some 17) :
    PartA.retryAux fn i r = (.error e, 1) := by
  cases r with
  | zero => simp [PartA.retryAux, h]
  | succ r => simp [PartA.retryAux, h, hc]

end Spec

namespace Spec

theorem escapeChar_clean (c : Char) (h : escapable c = false) : escapeChar c = [c] := by
  simp only [escapable, Bool.or_eq_false_iff, beq_eq_false_iff_ne, ne_eq] at h
  obtain ⟨⟨⟨⟨⟨⟨⟨h1, h2⟩, h3⟩, h4⟩, h5⟩, h6⟩, h7⟩, h8⟩ := h
  simp [escapeChar, h1, h2, h3, h4, h5, h6, h7, h8]

theorem escapeChar_big (c : Char) (h : escapable c = true) : 2 ≤ (escapeChar c).length := by
  simp only [escapable, Bool.or_eq_true, beq_iff_eq] at h
  rcases h with ((((((h | h) | h) | h) | h) | h) | h) | h <;> subst h <;> decide

theorem escapeChar_pos (c : Char) : 1 ≤ (escapeChar c).length := by
  by_cases h : escapable c = true
  · have := escapeChar_big c h; omega
  · rw [escapeChar_clean c (by simpa using h)]; simp

theorem escapeList_clean : ∀ l : List Char, (∀ c ∈ l, escapable c = false) → escapeList l = l := by
  intro l
  induction l with
  | nil => intro _; rfl
  | cons c cs ih =>
    intro h
    have hc := h c (List.mem_cons_self c cs)
    have hcs := ih (fun d hd => h d (List.mem_cons_of_mem c hd))
    simp [escapeList, escapeChar_clean c hc, hcs]

theorem length_le_escapeList : ∀ l : List Char, l.length ≤ (escapeList l).length := by
  intro l
  induction l with
  | nil => simp [escapeList]
  | cons c cs ih =>
    have := escapeChar_pos c
    simp only [escapeList, List.length_append, List.length_cons]
    omega

theorem length_lt_escapeList : ∀ (l : List Char) (c : Char), c ∈ l → escapable c = true →
    l.length < (escapeList l).length := by
  intro l
  induction l with
  | nil => intro c hc; cases hc
  | cons d ds ih =>
    intro c hc hesc
    rcases List.mem_cons.mp hc with rfl | hmem
    · have h2 := escapeChar_big c hesc
      have h3 := length_le_escapeList ds
      simp only [escapeList, List.length_append, List.length_cons]
      omega
    · have h2 := escapeChar_pos d
      have h3 := ih c hmem hesc
      simp only [escapeList, List.length_append, List.length_cons]
      omega

theorem escape_ne_iff (s : String) :
    escape s ≠ s ↔ ∃ c ∈ s.data, escapable c = true := by
  constructor
  · intro h
    by_contra hno
    push_neg at hno
    apply h
    unfold escape
    rw [escapeList_clean s.data (fun c hc => by simpa using hno c hc)]
  · rintro ⟨c, hc, hesc⟩ h
    have hlt := length_lt_escapeList s.data c hc hesc
    have hdata : escapeList s.data = s.data := congrArg String.data h
    rw [hdata] at hlt
    omega

end Spec

namespace Spec

theorem Index.uploadCalls_eq (acct tok : String) (stub : Index.Stub) (s : Index.Sanitized)
    (ha : Spec.actPrefixed acct = true) :
    (Index.pipeline acct tok stub s).log.uploadCalls = [s.imageUrl] := by
  simp only [Index.pipeline, ha, if_true]
  repeat' split
  all_goals simp [Index.emptyLog]

theorem Index.handlerCampaignCalls (isURL : String → Bool) (acct tok : String)
    (stub : Index.Stub) (r : Index.Request) :
    ∀ p ∈ (Index.handler isURL acct tok stub r).log.campaignCalls,
      p = Index.campaignPayload tok (Index.sanitize r).campaignName := by
  intro p hp
  by_cases hv : Index.validate isURL r = []
  · rw [Index.handler_valid isURL acct tok stub r hv] at hp
    exact Index.campaignCalls_shape acct tok stub (Index.sanitize r) p hp
  · rw [Index.handler_invalid isURL acct tok stub r hv] at hp
    simp [Index.emptyLog] at hp

theorem Index.handlerAdSetCalls (isURL : String → Bool) (acct tok : String)
    (stub : Index.Stub) (r : Index.Request) :
    ∀ p ∈ (Index.handler isURL acct tok stub r).log.adSetCalls,
      p.status = "PAUSED" ∧ p.name = (Index.sanitize r).adSetName := by
  intro p hp
  by_cases hv : Index.validate isURL r = []
  · rw [Index.handler_valid isURL acct tok stub r hv] at hp
    exact Index.adSetCalls_shape acct tok stub (Index.sanitize r) p hp
  · rw [Index.handler_invalid isURL acct tok stub r hv] at hp
    simp [Index.emptyLog] at hp

theorem Index.handlerAdCalls (isURL : String → Bool) (acct tok : String)
    (stub : Index.Stub) (r : Index.Request) :
    ∀ p ∈ (Index.handler isURL acct tok stub r).log.adCalls,
      p.status = "PAUSED" ∧ p.name = (Index.sanitize r).adName := by
  intro p hp
  by_cases hv : Index.validate isURL r = []
  · rw [Index.handler_valid isURL acct tok stub r hv] at hp
    exact Index.adCalls_shape acct tok stub (Index.sanitize r) p hp
  · rw [Index.handler_invalid isURL acct tok stub r hv] at hp
    simp [Index.emptyLog] at hp

theorem Index.handlerCreativeCalls (isURL : String → Bool) (acct tok : String)
    (stub : Index.Stub) (r : Index.Request) :
    ∀ p ∈ (Index.handler isURL acct tok stub r).log.creativeCalls,
      p.name = (Index.sanitize r).creativeTitle ∧
      p.object_story_spec.link_data.name = (Index.sanitize r).creativeTitle ∧
      p.object_story_spec.link_data.message = (Index.sanitize r).creativeBody ∧
      stub.uploadImage (Index.sanitize r).imageUrl = .ok p.object_story_spec.link_data.image_hash := by
  intro p hp
  by_cases hv : Index.validate isURL r = []
  · rw [Index.handler_valid isURL acct tok stub r hv] at hp
    exact Index.creativeCalls_shape acct tok stub (Index.sanitize r) p hp
  · rw [Index.handler_invalid isURL acct tok stub r hv] at hp
    simp [Index.emptyLog] at hp

theorem PartA.handlerCampaignCallsP (isNum : String → Bool) (stub : PartA.Stub) (r : PartA.Request) :
    ∀ p ∈ (PartA.handler isNum stub r).log.campaignCalls,
      p.status = "PAUSED" ∧ p.name = (PartA.sanitize r).campaignName := by
  intro p hp
  by_cases hv : PartA.validate isNum r = []
  · rw [PartA.handler_validP isNum stub r hv] at hp
    exact PartA.campaignCalls_shapeP stub (PartA.sanitize r) p hp
  · rw [PartA.handler_invalidP isNum stub r hv] at hp
    simp [PartA.emptyLog] at hp

theorem PartA.handlerAdSetCallsP (isNum : String → Bool) (stub : PartA.Stub) (r : PartA.Request) :
    ∀ p ∈ (PartA.handler isNum stub r).log.adSetCalls,
      p.status = "PAUSED" ∧ p.name = (PartA.sanitize r).adSetName := by
  intro p hp
  by_cases hv : PartA.validate isNum r = []
  · rw [PartA.handler_validP isNum stub r hv] at hp
    exact PartA.adSetCalls_shapeP stub (PartA.sanitize r) p hp
  · rw [PartA.handler_invalidP isNum stub r hv] at hp
    simp [PartA.emptyLog] at hp

theorem PartA.handlerAdCallsP (isNum : String → Bool) (stub : PartA.Stub) (r : PartA.Request) :
    ∀ p ∈ (PartA.handler isNum stub r).log.adCalls,
      p.status = "PAUSED" ∧ p.name = (PartA.sanitize r).adName := by
  intro p hp
  by_cases hv : PartA.validate isNum r = []
  · rw [PartA.handler_validP isNum stub r hv] at hp
    exact PartA.adCalls_shapeP stub (PartA.sanitize r) p hp
  · rw [PartA.handler_invalidP isNum stub r hv] at hp
    simp [PartA.emptyLog] at hp

end Spec

/-- C1 (corrected): the claimed retry contract holds unconditionally for
the index.js wrapper: an operation failing k < max times and then
succeeding yields the success value after exactly k + 1 invocations, and
an always failing operation is invoked exactly max times with the error
of the final attempt propagated unchanged. For the part_000 wrapper the
two statements hold when every failure carries the rate limit code 17;
a failure with any other code is propagated at once (counterexample). -/
theorem C1_retry_amended {α : Type} (mx k : Nat) (v w : α)
    (fa fb ga gb : Nat → Except Spec.RemoteError α)
    (hmax : 1 ≤ mx) (hk : k < mx)
    (h1 : ∀ j, j < k → ∃ e, fa j = .error e)
    (h2 : fa k = .ok v)
    (h3 : ∀ j, j < mx → ∃ e, fb j = .error e)
    (h4 : ∀ j, j < k → ∃ e, ga j = .error e ∧ e.code = some 17)
    (h5 : ga k = .ok w)
    (h6 : ∀ j, j < mx → ∃ e, gb j = .error e ∧ e.code = some 17) :
    Spec.Index.retryRequest fa mx = (.ok v, k + 1) ∧
    Spec.Index.retryRequest fb mx = (fb (mx - 1), mx) ∧
    Spec.PartA.retryRequest ga mx = (.ok w, k + 1) ∧
    Spec.PartA.retryRequest gb mx = (gb (mx - 1), mx) := by
  refine ⟨?_, ?_, ?_, ?_⟩
  · unfold Spec.Index.retryRequest
    apply Spec.Index.retryAux_ok fa v k 0 (mx - 1) (by omega)
    · intro j hj
      simpa using h1 j hj
    · simpa using h2
  · unfold Spec.Index.retryRequest
    have h := Spec.Index.retryAux_final fb (mx - 1) 0 (fun j hj => by simpa using h3 j (by omega))
    rw [h, Nat.zero_add, Nat.sub_add_cancel hmax]
  · unfold Spec.PartA.retryRequest
    apply Spec.PartA.retryAux_okP ga w k 0 (mx - 1) (by omega)
    · intro j hj
      simpa using h4 j hj
    · simpa using h5
  · unfold Spec.PartA.retryRequest
    have h := Spec.PartA.retryAux_finalP gb (mx - 1) 0 (fun j hj => by simpa using h6 j (by omega))
    rw [h, Nat.zero_add, Nat.sub_add_cancel hmax]

/-- C1 counterexample: the part_000 retry wrapper, given an operation
that fails once (k = 1 < max = 3) with a non rate limit error and then
succeeds, propagates the first failure after a single invocation instead
of returning the success value after two invocations as claimed. -/
theorem C1_counterexample :
    Spec.PartA.retryRequest Spec.failOncePerm 3 = (.error Spec.ePerm, 1) ∧
    ((Except.error Spec.ePerm, 1) : Except Spec.RemoteError String × Nat) ≠ (.ok "C", 2) :=
  ⟨by decide, by decide⟩

/-- C1 witness: concrete operations failing twice then succeeding, and
always failing, under both wrappers with max = 3. -/
theorem C1_witness :
    Spec.Index.retryRequest Spec.failTwiceBoom 3 = (.ok "A", 3) ∧
    Spec.Index.retryRequest Spec.alwaysBoom 3 = (Spec.alwaysBoom 2, 3) ∧
    Spec.PartA.retryRequest Spec.failTwiceRate 3 = (.ok "B", 3) ∧
    Spec.PartA.retryRequest Spec.alwaysRate 3 = (Spec.alwaysRate 2, 3) :=
  C1_retry_amended 3 2 "A" "B" Spec.failTwiceBoom Spec.alwaysBoom Spec.failTwiceRate Spec.alwaysRate
    (by decide) (by decide)
    (fun j hj => ⟨Spec.eBoom, by simp [Spec.failTwiceBoom, hj]⟩)
    (by decide)
    (fun j _ => ⟨Spec.eBoom, rfl⟩)
    (fun j hj => ⟨Spec.eRate, by simp [Spec.failTwiceRate, hj], rfl⟩)
    (by decide)
    (fun j _ => ⟨Spec.eRate, rfl, rfl⟩)

/-- C6 (corrected): in the part_000 variant a failure whose code is not
the rate limit code 17 is propagated immediately after exactly one
invocation, as the claim states; in the index.js variant, however, every
failure is retried regardless of classification, so a permanently
failing operation is invoked exactly 3 times (the default budget) before
its failure is propagated. -/
theorem C6_permanent_amended {α : Type} (mx : Nat) (e1 e2 : Spec.RemoteError)
    (fn g : Nat → Except Spec.RemoteError α)
    (_hmax : 1 ≤ mx) (h0 : fn 0 = .error e1) (hc : ¬ e1.code = some 17)
    (hg : ∀ j, g j = .error e2) :
    Spec.PartA.retryRequest fn mx = (.error e1, 1) ∧
    Spec.Index.retryRequest g 3 = (.error e2, 3) := by
  constructor
  · exact Spec.PartA.retryAux_perm fn e1 0 (mx - 1) h0 hc
  · have h := Spec.Index.retryAux_final g 2 0 (fun j _ => ⟨e2, hg (0 + j)⟩)
    show Spec.Index.retryAux g 0 2 = (.error e2, 3)
    rw [h, Nat.zero_add, hg 2]

/-- C6 counterexample: the index.js retry wrapper invokes a permanently
failing operation three times, not exactly once as claimed. -/
theorem C6_counterexample :
    Spec.Index.retryRequest (fun _ => (.error Spec.ePerm : Except Spec.RemoteError String)) 3 =
      (.error Spec.ePerm, 3) ∧
    (3 : Nat) ≠ 1 :=
  ⟨by decide, by decide⟩

/-- C6 witness: a permanent failure under the part_000 wrapper is
propagated after one invocation; an always failing operation under the
index.js wrapper is invoked three times. -/
theorem C6_witness :
    Spec.PartA.retryRequest Spec.failOncePerm 3 = (.error Spec.ePerm, 1) ∧
    Spec.Index.retryRequest Spec.alwaysBoom 3 = (.error Spec.eBoom, 3) :=
  C6_permanent_amended 3 Spec.ePerm Spec.eBoom Spec.failOncePerm Spec.alwaysBoom
    (by decide) (by decide) (by decide) (fun _ => rfl)

/-- C2 (confirmed): in both variants, when campaign creation fails after
its retries are exhausted, the ad set, creative and ad operations are
never invoked (their call logs are empty) and the endpoint responds with
the 500 failure response. -/
theorem C2_short_circuit (isURL : String → Bool) (acct tok : String) (stub : Spec.Index.Stub)
    (r : Spec.Index.Request) (img : String) (e : Spec.RemoteError) (n1 : Nat)
    (isNum : String → Bool) (stub2 : Spec.PartA.Stub) (r2 : Spec.PartA.Request)
    (e2 : Spec.RemoteError) (m1 : Nat)
    (hv : Spec.Index.validate isURL r = [])
    (ha : Spec.actPrefixed acct = true)
    (hu : stub.uploadImage (Spec.Index.sanitize r).imageUrl = .ok img)
    (hc : Spec.Index.retryRequest (stub.createCampaign
      (Spec.Index.campaignPayload tok (Spec.Index.sanitize r).campaignName)) 3 = (.error e, n1))
    (hv2 : Spec.PartA.validate isNum r2 = [])
    (hc2 : Spec.PartA.retryRequest (stub2.createCampaign
      (Spec.PartA.campaignPayload (Spec.PartA.sanitize r2).campaignName)) 3 = (.error e2, m1)) :
    ((Spec.Index.handler isURL acct tok stub r).log.adSetCalls = [] ∧
     (Spec.Index.handler isURL acct tok stub r).log.creativeCalls = [] ∧
     (Spec.Index.handler isURL acct tok stub r).log.adCalls = [] ∧
     (Spec.Index.handler isURL acct tok stub r).response = Spec.Index.errorResponse e) ∧
    ((Spec.PartA.handler isNum stub2 r2).log.adSetCalls = [] ∧
     (Spec.PartA.handler isNum stub2 r2).log.creativeCalls = [] ∧
     (Spec.PartA.handler isNum stub2 r2).log.adCalls = [] ∧
     (Spec.PartA.handler isNum stub2 r2).response = .serverError e2.message) := by
  rw [Spec.Index.handler_valid isURL acct tok stub r hv,
    Spec.Index.pipeline_campaignFail acct tok stub (Spec.Index.sanitize r) img e n1 ha hu hc,
    Spec.PartA.handler_validP isNum stub2 r2 hv2,
    Spec.PartA.pipeline_campaignFailP stub2 (Spec.PartA.sanitize r2) e2 m1 hc2]
  exact ⟨⟨rfl, rfl, rfl, rfl⟩, rfl, rfl, rfl, rfl⟩

/-- C2 witness: the concrete example request under environments whose
campaign creation fails permanently; in the index.js variant the
campaign operation is retried three times, in the part_000 variant it is
invoked once, and in both no later operation is invoked. -/
theorem C2_witness :
    ((Spec.Index.handler Spec.isURLc "act_123" "TOKEN" Spec.stubCampaignFails Spec.reqFull).log.adSetCalls = [] ∧
     (Spec.Index.handler Spec.isURLc "act_123" "TOKEN" Spec.stubCampaignFails Spec.reqFull).log.creativeCalls = [] ∧
     (Spec.Index.handler Spec.isURLc "act_123" "TOKEN" Spec.stubCampaignFails Spec.reqFull).log.adCalls = [] ∧
     (Spec.Index.handler Spec.isURLc "act_123" "TOKEN" Spec.stubCampaignFails Spec.reqFull).response =
       Spec.Index.errorResponse Spec.ePerm) ∧
    ((Spec.PartA.handler Spec.isNumC Spec.stub2CampaignFails Spec.reqPart).log.adSetCalls = [] ∧
     (Spec.PartA.handler Spec.isNumC Spec.stub2CampaignFails Spec.reqPart).log.creativeCalls = [] ∧
     (Spec.PartA.handler Spec.isNumC Spec.stub2CampaignFails Spec.reqPart).log.adCalls = [] ∧
     (Spec.PartA.handler Spec.isNumC Spec.stub2CampaignFails Spec.reqPart).response =
       .serverError Spec.ePerm.message) :=
  C2_short_circuit Spec.isURLc "act_123" "TOKEN" Spec.stubCampaignFails Spec.reqFull
    "IMGHASH1" Spec.ePerm 3 Spec.isNumC Spec.stub2CampaignFails Spec.reqPart Spec.ePerm 1
    (by decide) (by decide) (by decide) (by decide) (by decide) (by decide)

/-- C3 (confirmed): in both variants an invalid request is answered with
the 400 response carrying the collected violation list and an empty call
log (zero remote calls), and the list names every offending field: each
missing or empty required text field, a missing or empty page id, a page
id failing the numeric check, and each malformed url field. -/
theorem C3_validation (isURL : String → Bool) (acct tok : String) (stub : Spec.Index.Stub)
    (r : Spec.Index.Request)
    (isNum : String → Bool) (stub2 : Spec.PartA.Stub) (r2 : Spec.PartA.Request)
    (hv : Spec.Index.validate isURL r ≠ [])
    (hv2 : Spec.PartA.validate isNum r2 ≠ []) :
    (Spec.Index.handler isURL acct tok stub r =
      ⟨.badRequest (Spec.Index.validate isURL r), Spec.Index.emptyLog⟩) ∧
    (r.campaignName.getD "" = "" →
      ("campaignName", "Invalid value") ∈ Spec.Index.validate isURL r) ∧
    (r.adSetName.getD "" = "" → ("adSetName", "Invalid value") ∈ Spec.Index.validate isURL r) ∧
    (r.adName.getD "" = "" → ("adName", "Invalid value") ∈ Spec.Index.validate isURL r) ∧
    (r.creativeTitle.getD "" = "" →
      ("creativeTitle", "Invalid value") ∈ Spec.Index.validate isURL r) ∧
    (r.creativeBody.getD "" = "" →
      ("creativeBody", "Invalid value") ∈ Spec.Index.validate isURL r) ∧
    (r.pageId.getD "" = "" → ("pageId", "Invalid value") ∈ Spec.Index.validate isURL r) ∧
    (isURL (r.link.getD "") = false → ("link", "Invalid URL") ∈ Spec.Index.validate isURL r) ∧
    (isURL (r.imageUrl.getD "") = false →
      ("imageUrl", "Invalid image URL") ∈ Spec.Index.validate isURL r) ∧
    (Spec.PartA.handler isNum stub2 r2 =
      ⟨.badRequest (Spec.PartA.validate isNum r2), Spec.PartA.emptyLog⟩) ∧
    (r2.campaignName.getD "" = "" →
      ("campaignName", "Campaign name is required") ∈ Spec.PartA.validate isNum r2) ∧
    (r2.adSetName.getD "" = "" →
      ("adSetName", "Ad set name is required") ∈ Spec.PartA.validate isNum r2) ∧
    (r2.adName.getD "" = "" → ("adName", "Ad name is required") ∈ Spec.PartA.validate isNum r2) ∧
    (r2.creativeTitle.getD "" = "" →
      ("creativeTitle", "Creative title is required") ∈ Spec.PartA.validate isNum r2) ∧
    (r2.creativeBody.getD "" = "" →
      ("creativeBody", "Creative body is required") ∈ Spec.PartA.validate isNum r2) ∧
    (isNum (r2.pageId.getD "") = false →
      ("pageId", "Page ID must be numeric") ∈ Spec.PartA.validate isNum r2) := by
  refine ⟨Spec.Index.handler_invalid isURL acct tok stub r hv, ?_, ?_, ?_, ?_, ?_, ?_, ?_, ?_,
    Spec.PartA.handler_invalidP isNum stub2 r2 hv2, ?_, ?_, ?_, ?_, ?_, ?_⟩
  all_goals intro h
  all_goals
    simp [Spec.Index.validate, Spec.Index.textCheck, Spec.Index.pageIdCheck, Spec.Index.urlCheck,
      Spec.PartA.validate, Spec.PartA.textCheck, h]

/-- C3 witness: a request with a missing campaign name, an empty
creative body, a missing page id and a malformed link, and a part_000
request with a missing campaign name and empty creative body. -/
theorem C3_witness :
    (Spec.Index.handler Spec.isURLc "act_123" "TOKEN" Spec.stubAllOk Spec.reqBad =
      ⟨.badRequest (Spec.Index.validate Spec.isURLc Spec.reqBad), Spec.Index.emptyLog⟩) ∧
    (Spec.reqBad.campaignName.getD "" = "" →
      ("campaignName", "Invalid value") ∈ Spec.Index.validate Spec.isURLc Spec.reqBad) ∧
    (Spec.reqBad.adSetName.getD "" = "" →
      ("adSetName", "Invalid value") ∈ Spec.Index.validate Spec.isURLc Spec.reqBad) ∧
    (Spec.reqBad.adName.getD "" = "" →
      ("adName", "Invalid value") ∈ Spec.Index.validate Spec.isURLc Spec.reqBad) ∧
    (Spec.reqBad.creativeTitle.getD "" = "" →
      ("creativeTitle", "Invalid value") ∈ Spec.Index.validate Spec.isURLc Spec.reqBad) ∧
    (Spec.reqBad.creativeBody.getD "" = "" →
      ("creativeBody", "Invalid value") ∈ Spec.Index.validate Spec.isURLc Spec.reqBad) ∧
    (Spec.reqBad.pageId.getD "" = "" →
      ("pageId", "Invalid value") ∈ Spec.Index.validate Spec.isURLc Spec.reqBad) ∧
    (Spec.isURLc (Spec.reqBad.link.getD "") = false →
      ("link", "Invalid URL") ∈ Spec.Index.validate Spec.isURLc Spec.reqBad) ∧
    (Spec.isURLc (Spec.reqBad.imageUrl.getD "") = false →
      ("imageUrl", "Invalid image URL") ∈ Spec.Index.validate Spec.isURLc Spec.reqBad) ∧
    (Spec.PartA.handler Spec.isNumC Spec.stubAllOk2 Spec.reqPartBad =
      ⟨.badRequest (Spec.PartA.validate Spec.isNumC Spec.reqPartBad), Spec.PartA.emptyLog⟩) ∧
    (Spec.reqPartBad.campaignName.getD "" = "" →
      ("campaignName", "Campaign name is required") ∈ Spec.PartA.validate Spec.isNumC Spec.reqPartBad) ∧
    (Spec.reqPartBad.adSetName.getD "" = "" →
      ("adSetName", "Ad set name is required") ∈ Spec.PartA.validate Spec.isNumC Spec.reqPartBad) ∧
    (Spec.reqPartBad.adName.getD "" = "" →
      ("adName", "Ad name is required") ∈ Spec.PartA.validate Spec.isNumC Spec.reqPartBad) ∧
    (Spec.reqPartBad.creativeTitle.getD "" = "" →
      ("creativeTitle", "Creative title is required") ∈ Spec.PartA.validate Spec.isNumC Spec.reqPartBad) ∧
    (Spec.reqPartBad.creativeBody.getD "" = "" →
      ("creativeBody", "Creative body is required") ∈ Spec.PartA.validate Spec.isNumC Spec.reqPartBad) ∧
    (Spec.isNumC (Spec.reqPartBad.pageId.getD "") = false →
      ("pageId", "Page ID must be numeric") ∈ Spec.PartA.validate Spec.isNumC Spec.reqPartBad) :=
  C3_validation Spec.isURLc "act_123" "TOKEN" Spec.stubAllOk Spec.reqBad
    Spec.isNumC Spec.stubAllOk2 Spec.reqPartBad (by decide) (by decide)

/-- C4 counterexample: the example input of the claim carries no
imageUrl, which the index.js endpoint requires: at exactly that input,
with the stub returning the fixed identifiers, the response is the 400
violation response naming imageUrl, not the claimed success object. -/
theorem C4_counterexample :
    (Spec.Index.handler Spec.isURLc "act_123" "TOKEN" Spec.stubAllOk Spec.reqNoImage).response =
      .badRequest [("imageUrl", "Invalid image URL")] ∧
    Spec.Index.Response.badRequest [("imageUrl", "Invalid image URL")] ≠
      .success "cmp_1" "set_1" "cre_1" "ad_1" :=
  ⟨by decide, by decide⟩

/-- C4 (corrected): when validation passes, which in the index.js
variant additionally requires a well-formed imageUrl, and every pipeline
step succeeds, the index.js endpoint responds with the success object
holding the four created identifiers; the part_000 variant instead
responds with a single message string naming the campaign and ad
identifiers. -/
theorem C4_success_amended (isURL : String → Bool) (acct tok : String) (stub : Spec.Index.Stub)
    (r : Spec.Index.Request) (img cid sid crid aid : String) (n1 n2 n3 n4 : Nat)
    (isNum : String → Bool) (stub2 : Spec.PartA.Stub) (r2 : Spec.PartA.Request)
    (cid2 sid2 crid2 aid2 : String) (m1 m2 m3 m4 : Nat)
    (hv : Spec.Index.validate isURL r = [])
    (ha : Spec.actPrefixed acct = true)
    (hu : stub.uploadImage (Spec.Index.sanitize r).imageUrl = .ok img)
    (hc : Spec.Index.retryRequest (stub.createCampaign
      (Spec.Index.campaignPayload tok (Spec.Index.sanitize r).campaignName)) 3 = (.ok cid, n1))
    (hs : Spec.Index.retryRequest (stub.createAdSet
      (Spec.Index.adSetPayload tok (Spec.Index.sanitize r).adSetName cid)) 3 = (.ok sid, n2))
    (hcr : Spec.Index.retryRequest (stub.createAdCreative
      (Spec.Index.creativePayload tok (Spec.Index.sanitize r).creativeTitle
        (Spec.Index.sanitize r).creativeBody (Spec.Index.sanitize r).pageId
        (Spec.Index.sanitize r).link img)) 3 = (.ok crid, n3))
    (had : Spec.Index.retryRequest (stub.createAd
      (Spec.Index.adPayload tok (Spec.Index.sanitize r).adName sid crid)) 3 = (.ok aid, n4))
    (hv2 : Spec.PartA.validate isNum r2 = [])
    (hc2 : Spec.PartA.retryRequest (stub2.createCampaign
      (Spec.PartA.campaignPayload (Spec.PartA.sanitize r2).campaignName)) 3 = (.ok cid2, m1))
    (hs2 : Spec.PartA.retryRequest (stub2.createAdSet
      (Spec.PartA.adSetPayload (Spec.PartA.sanitize r2).adSetName cid2)) 3 = (.ok sid2, m2))
    (hcr2 : Spec.PartA.retryRequest (stub2.createAdCreative
      (Spec.PartA.creativePayload (Spec.PartA.sanitize r2).creativeTitle
        (Spec.PartA.sanitize r2).creativeBody (Spec.PartA.sanitize r2).pageId)) 3 =
        (.ok crid2, m3))
    (had2 : Spec.PartA.retryRequest (stub2.createAd
      (Spec.PartA.adPayload (Spec.PartA.sanitize r2).adName sid2 crid2)) 3 = (.ok aid2, m4)) :
    (Spec.Index.handler isURL acct tok stub r).response = .success cid sid crid aid ∧
    (Spec.PartA.handler isNum stub2 r2).response =
      .success ("Ad created successfully! Campaign ID: " ++ cid2 ++ ", Ad ID: " ++ aid2) := by
  constructor
  · rw [Spec.Index.handler_valid isURL acct tok stub r hv]
    exact Spec.Index.pipeline_allOk acct tok stub (Spec.Index.sanitize r)
      img cid sid crid aid n1 n2 n3 n4 ha hu hc hs hcr had
  · rw [Spec.PartA.handler_validP isNum stub2 r2 hv2]
    exact Spec.PartA.pipeline_allOkP stub2 (Spec.PartA.sanitize r2)
      cid2 sid2 crid2 aid2 m1 m2 m3 m4 hc2 hs2 hcr2 had2

/-- C4 witness: the example input extended with a well-formed imageUrl,
under the stub returning the fixed identifiers, yields the claimed
success object in the index.js variant and the message string in the
part_000 variant. -/
theorem C4_witness :
    (Spec.Index.handler Spec.isURLc "act_123" "TOKEN" Spec.stubAllOk Spec.reqFull).response =
      .success "cmp_1" "set_1" "cre_1" "ad_1" ∧
    (Spec.PartA.handler Spec.isNumC Spec.stubAllOk2 Spec.reqPart).response =
      .success ("Ad created successfully! Campaign ID: " ++ "cmp_1" ++ ", Ad ID: " ++ "ad_1") :=
  C4_success_amended Spec.isURLc "act_123" "TOKEN" Spec.stubAllOk Spec.reqFull
    "IMGHASH1" "cmp_1" "set_1" "cre_1" "ad_1" 1 1 1 1
    Spec.isNumC Spec.stubAllOk2 Spec.reqPart "cmp_1" "set_1" "cre_1" "ad_1" 1 1 1 1
    (by decide) (by decide) (by decide) (by decide) (by decide) (by decide) (by decide)
    (by decide) (by decide) (by decide) (by decide) (by decide)

/-- C5 counterexample: in the part_000 variant the 500 body holds a
single error field with the local error message; here ad set creation
fails with remote message Invalid targeting spec and trace TRC99, yet
the response carries no details or fbtrace_id field and its only message
is the local one, which differs from the remote message. -/
theorem C5_counterexample :
    (Spec.PartA.handler Spec.isNumC Spec.stub2AdSetFails Spec.reqPart).response =
      .serverError "Call failed" ∧
    "Call failed" ≠ "Invalid targeting spec" :=
  ⟨by decide, by decide⟩

/-- C5 (corrected): in the index.js variant, when a pipeline step fails
after its retries are exhausted (shown for the ad set step of the
example), the endpoint responds 500 with details equal to the remote
supplied message whenever one is present and non-empty, and fbtrace_id
equal to the remote trace identifier, and no creative or ad call is
recorded; the part_000 variant responds 500 with only an error field
holding the local message. -/
theorem C5_error_amended (isURL : String → Bool) (acct tok : String) (stub : Spec.Index.Stub)
    (r : Spec.Index.Request) (img cid : String) (e : Spec.RemoteError) (n1 n2 : Nat)
    (m t : String)
    (hv : Spec.Index.validate isURL r = [])
    (ha : Spec.actPrefixed acct = true)
    (hu : stub.uploadImage (Spec.Index.sanitize r).imageUrl = .ok img)
    (hc : Spec.Index.retryRequest (stub.createCampaign
      (Spec.Index.campaignPayload tok (Spec.Index.sanitize r).campaignName)) 3 = (.ok cid, n1))
    (hs : Spec.Index.retryRequest (stub.createAdSet
      (Spec.Index.adSetPayload tok (Spec.Index.sanitize r).adSetName cid)) 3 = (.error e, n2))
    (hm : e.respMessage = some m) (hmne : m ≠ "") (ht : e.respTrace = some t) :
    (Spec.Index.handler isURL acct tok stub r).response =
      .serverError "Ad creation failed" m (some t) ∧
    (Spec.Index.handler isURL acct tok stub r).log.creativeCalls = [] ∧
    (Spec.Index.handler isURL acct tok stub r).log.adCalls = [] := by
  rw [Spec.Index.handler_valid isURL acct tok stub r hv,
    Spec.Index.pipeline_adSetFail acct tok stub (Spec.Index.sanitize r) img cid e n1 n2 ha hu hc hs]
  refine ⟨?_, rfl, rfl⟩
  simp [Spec.Index.errorResponse, Spec.Index.errDetails, hm, hmne, ht]

/-- C5 witness: the example request with an environment whose ad set
creation fails permanently with message Invalid targeting spec and trace
TRC99: the response is 500 with those values and no creative or ad call
is recorded. -/
theorem C5_witness :
    (Spec.Index.handler Spec.isURLc "act_123" "TOKEN" Spec.stubAdSetFails Spec.reqFull).response =
      .serverError "Ad creation failed" "Invalid targeting spec" (some "TRC99") ∧
    (Spec.Index.handler Spec.isURLc "act_123" "TOKEN" Spec.stubAdSetFails Spec.reqFull).log.creativeCalls = [] ∧
    (Spec.Index.handler Spec.isURLc "act_123" "TOKEN" Spec.stubAdSetFails Spec.reqFull).log.adCalls = [] :=
  C5_error_amended Spec.isURLc "act_123" "TOKEN" Spec.stubAdSetFails Spec.reqFull
    "IMGHASH1" "cmp_1" Spec.ePerm 1 3 "Invalid targeting spec" "TRC99"
    (by decide) (by decide) (by decide) (by decide) (by decide) (by decide) (by decide) (by decide)

/-- C7 counterexample: a request identical to the example except that no
image url is supplied is rejected by validation of the index.js endpoint
with a violation naming imageUrl and an empty call log, so such a
request is not valid and no pipeline run with an omitted image reference
exists. -/
theorem C7_counterexample :
    Spec.Index.handler Spec.isURLc "act_123" "TOKEN" Spec.stubAllOk Spec.reqNoImage =
      ⟨.badRequest [("imageUrl", "Invalid image URL")], Spec.Index.emptyLog⟩ := by
  decide

/-- C7 (corrected): in the index.js variant the image url is mandatory:
any request whose imageUrl fails the url check (in particular a missing
one, coerced to the empty string) is rejected by validation; for every
request that passes validation the upload step runs exactly once, and
every creative payload transmitted carries an image_hash field equal to
the hash returned by the upload. -/
theorem C7_image_amended (isURL : String → Bool) (acct tok : String) (stub : Spec.Index.Stub)
    (r : Spec.Index.Request)
    (hv : Spec.Index.validate isURL r = [])
    (ha : Spec.actPrefixed acct = true) :
    (∀ q : Spec.Index.Request, isURL (q.imageUrl.getD "") = false →
      Spec.Index.validate isURL q ≠ []) ∧
    (Spec.Index.handler isURL acct tok stub r).log.uploadCalls =
      [(Spec.Index.sanitize r).imageUrl] ∧
    (∀ p ∈ (Spec.Index.handler isURL acct tok stub r).log.creativeCalls,
      stub.uploadImage (Spec.Index.sanitize r).imageUrl =
        .ok p.object_story_spec.link_data.image_hash) := by
  refine ⟨?_, ?_, ?_⟩
  · intro q hq hcontra
    have hmem : ("imageUrl", "Invalid image URL") ∈ Spec.Index.validate isURL q := by
      simp [Spec.Index.validate, Spec.Index.urlCheck, hq]
    rw [hcontra] at hmem
    exact absurd hmem (List.not_mem_nil _)
  · rw [Spec.Index.handler_valid isURL acct tok stub r hv]
    exact Spec.Index.uploadCalls_eq acct tok stub (Spec.Index.sanitize r) ha
  · intro p hp
    exact (Spec.Index.handlerCreativeCalls isURL acct tok stub r p hp).2.2.2

/-- C7 witness: the example request with an image url runs the upload
exactly once and transmits the returned hash in the creative payload. -/
theorem C7_witness :
    (∀ q : Spec.Index.Request, Spec.isURLc (q.imageUrl.getD "") = false →
      Spec.Index.validate Spec.isURLc q ≠ []) ∧
    (Spec.Index.handler Spec.isURLc "act_123" "TOKEN" Spec.stubAllOk Spec.reqFull).log.uploadCalls =
      [(Spec.Index.sanitize Spec.reqFull).imageUrl] ∧
    (∀ p ∈ (Spec.Index.handler Spec.isURLc "act_123" "TOKEN" Spec.stubAllOk Spec.reqFull).log.creativeCalls,
      Spec.stubAllOk.uploadImage (Spec.Index.sanitize Spec.reqFull).imageUrl =
        .ok p.object_story_spec.link_data.image_hash) :=
  C7_image_amended Spec.isURLc "act_123" "TOKEN" Spec.stubAllOk Spec.reqFull
    (by decide) (by decide)

/-- C8 counterexample: with a present but malformed account id the
startup check passes, so the process accepts traffic, and a valid
request then fails with the 500 format error produced by the account id
check that runs inside the request handler, with no remote call. -/
theorem C8_counterexample :
    Spec.startupCheck (some "TOKEN") (some "123") = true ∧
    Spec.Index.handler Spec.isURLc "123" "TOKEN" Spec.stubAllOk Spec.reqFull =
      ⟨.serverError "Ad creation failed"
        "Invalid adAccountId format. Must start with \"act_\"" none, Spec.Index.emptyLog⟩ :=
  ⟨by decide, by decide⟩

/-- C8 (corrected): startup validates only presence (truthiness) of the
token and account id, accepting any non-empty account id regardless of
format; the act_ prefix format check runs inside the request handler of
src/index.js, so a request that passes validation fails with the 500
format error response, and performs no remote call, whenever the
configured account id is malformed. -/
theorem C8_config_amended (t a : String) (isURL : String → Bool) (acct tok : String)
    (stub : Spec.Index.Stub) (r : Spec.Index.Request)
    (ht : t ≠ "") (ha : a ≠ "")
    (hv : Spec.Index.validate isURL r = [])
    (hacc : Spec.actPrefixed acct = false) :
    Spec.startupCheck (some t) (some a) = true ∧
    Spec.Index.handler isURL acct tok stub r =
      ⟨.serverError "Ad creation failed"
        "Invalid adAccountId format. Must start with \"act_\"" none, Spec.Index.emptyLog⟩ := by
  constructor
  · simp [Spec.startupCheck, ht, ha]
  · rw [Spec.Index.handler_valid isURL acct tok stub r hv]
    exact Spec.Index.pipeline_badAcct acct tok stub (Spec.Index.sanitize r) hacc

/-- C8 witness: the startup check passes for the malformed account id
123, and the example request against it fails with the 500 format error
and no remote call. -/
theorem C8_witness :
    Spec.startupCheck (some "TOKEN") (some "123x") = true ∧
    Spec.Index.handler Spec.isURLc "123x" "TOKEN" Spec.stubAllOk Spec.reqFull =
      ⟨.serverError "Ad creation failed"
        "Invalid adAccountId format. Must start with \"act_\"" none, Spec.Index.emptyLog⟩ :=
  C8_config_amended "TOKEN" "123x" Spec.isURLc "123x" "TOKEN" Spec.stubAllOk Spec.reqFull
    (by decide) (by decide) (by decide) (by decide)

/-- C9 (confirmed): in both variants, every campaign, ad set and ad
payload transmitted to the remote API carries status PAUSED, for every
request, environment and execution, including partial failure runs. -/
theorem C9_paused (isURL : String → Bool) (acct tok : String) (stub : Spec.Index.Stub)
    (r : Spec.Index.Request) (isNum : String → Bool) (stub2 : Spec.PartA.Stub)
    (r2 : Spec.PartA.Request) :
    (∀ p ∈ (Spec.Index.handler isURL acct tok stub r).log.campaignCalls, p.status = "PAUSED") ∧
    (∀ p ∈ (Spec.Index.handler isURL acct tok stub r).log.adSetCalls, p.status = "PAUSED") ∧
    (∀ p ∈ (Spec.Index.handler isURL acct tok stub r).log.adCalls, p.status = "PAUSED") ∧
    (∀ p ∈ (Spec.PartA.handler isNum stub2 r2).log.campaignCalls, p.status = "PAUSED") ∧
    (∀ p ∈ (Spec.PartA.handler isNum stub2 r2).log.adSetCalls, p.status = "PAUSED") ∧
    (∀ p ∈ (Spec.PartA.handler isNum stub2 r2).log.adCalls, p.status = "PAUSED") := by
  refine ⟨?_, ?_, ?_, ?_, ?_, ?_⟩
  · intro p hp
    rw [Spec.Index.handlerCampaignCalls isURL acct tok stub r p hp]
    rfl
  · intro p hp
    exact (Spec.Index.handlerAdSetCalls isURL acct tok stub r p hp).1
  · intro p hp
    exact (Spec.Index.handlerAdCalls isURL acct tok stub r p hp).1
  · intro p hp
    exact (Spec.PartA.handlerCampaignCallsP isNum stub2 r2 p hp).1
  · intro p hp
    exact (Spec.PartA.handlerAdSetCallsP isNum stub2 r2 p hp).1
  · intro p hp
    exact (Spec.PartA.handlerAdCallsP isNum stub2 r2 p hp).1

/-- C9 witness: concrete payloads recorded in an all-success run of each
variant carry status PAUSED. -/
theorem C9_witness :
    (Spec.Index.campaignPayload "TOKEN" "Spring Sale").status = "PAUSED" ∧
    (Spec.PartA.adPayload "Launch" "set_1" "cre_1").status = "PAUSED" := by
  constructor
  · exact (C9_paused Spec.isURLc "act_123" "TOKEN" Spec.stubAllOk Spec.reqFull
      Spec.isNumC Spec.stubAllOk2 Spec.reqPart).1
      (Spec.Index.campaignPayload "TOKEN" "Spring Sale") (by decide)
  · exact (C9_paused Spec.isURLc "act_123" "TOKEN" Spec.stubAllOk Spec.reqFull
      Spec.isNumC Spec.stubAllOk2 Spec.reqPart).2.2.2.2.2
      (Spec.PartA.adPayload "Launch" "set_1" "cre_1") (by decide)

/-- C10 counterexample: with a campaign name carrying a leading space
and no escapable character, the transmitted name (trimmed then escaped)
differs from the verbatim input, refuting that the transmitted and
verbatim text differ exactly when the input contains an escapable
character. -/
theorem C10_counterexample :
    (Spec.Index.handler Spec.isURLc "act_123" "TOKEN" Spec.stubAllOk Spec.reqSpace).log.campaignCalls =
      [Spec.Index.campaignPayload "TOKEN" "Launch Sale"] ∧
    "Launch Sale" ≠ " Launch Sale" ∧
    (" Launch Sale").data.all (fun c => !(Spec.escapable c)) = true :=
  ⟨by decide, by decide, by decide⟩

/-- C10 (corrected): in the index.js variant every transmitted name and
message field equals the escape of the trimmed caller text, and the
escaped form differs from its input exactly when that input contains one
of the eight characters changed by the escape sanitizer; because of the
trim step the transmitted text can also differ from the verbatim caller
text without any escapable character (counterexample). -/
theorem C10_escape_amended (isURL : String → Bool) (acct tok : String) (stub : Spec.Index.Stub)
    (r : Spec.Index.Request) :
    (∀ p ∈ (Spec.Index.handler isURL acct tok stub r).log.campaignCalls,
      p.name = Spec.escape (Spec.jsTrim (r.campaignName.getD ""))) ∧
    (∀ p ∈ (Spec.Index.handler isURL acct tok stub r).log.adSetCalls,
      p.name = Spec.escape (Spec.jsTrim (r.adSetName.getD ""))) ∧
    (∀ p ∈ (Spec.Index.handler isURL acct tok stub r).log.adCalls,
      p.name = Spec.escape (Spec.jsTrim (r.adName.getD ""))) ∧
    (∀ p ∈ (Spec.Index.handler isURL acct tok stub r).log.creativeCalls,
      p.name = Spec.escape (Spec.jsTrim (r.creativeTitle.getD "")) ∧
      p.object_story_spec.link_data.name = Spec.escape (Spec.jsTrim (r.creativeTitle.getD "")) ∧
      p.object_story_spec.link_data.message = Spec.escape (Spec.jsTrim (r.creativeBody.getD ""))) ∧
    (∀ s : String, Spec.escape s ≠ s ↔ ∃ c ∈ s.data, Spec.escapable c = true) := by
  refine ⟨?_, ?_, ?_, ?_, Spec.escape_ne_iff⟩
  · intro p hp
    rw [Spec.Index.handlerCampaignCalls isURL acct tok stub r p hp]
    rfl
  · intro p hp
    exact (Spec.Index.handlerAdSetCalls isURL acct tok stub r p hp).2
  · intro p hp
    exact (Spec.Index.handlerAdCalls isURL acct tok stub r p hp).2
  · intro p hp
    have h := Spec.Index.handlerCreativeCalls isURL acct tok stub r p hp
    exact ⟨h.1, h.2.1, h.2.2.1⟩

/-- C10 witness: a campaign name containing an ampersand is transmitted
in escaped form, and the escape of that name differs from it because it
contains an escapable character. -/
theorem C10_witness :
    ((Spec.Index.campaignPayload "TOKEN" "A &amp; B").name =
      Spec.escape (Spec.jsTrim (Spec.reqAmp.campaignName.getD ""))) ∧
    (Spec.escape "A & B" ≠ "A & B" ↔ ∃ c ∈ ("A & B").data, Spec.escapable c = true) := by
  have h := C10_escape_amended Spec.isURLc "act_123" "TOKEN" Spec.stubAllOk Spec.reqAmp
  exact ⟨h.1 (Spec.Index.campaignPayload "TOKEN" "A &amp; B") (by decide), h.2.2.2.2 "A & B"⟩
